import Mathlib

set_option exponentiation.threshold 400
set_option maxRecDepth 8000
set_option linter.unusedVariables false

/-!
Verification of the financial cashflow computation engine of the
html-to-pdf repository (source: `src/unnamed/part_002`).

The engine is shallowly embedded over `ℚ`: JavaScript numbers become
rationals, the dynamically-typed input fields become the inductive
`JsVal` (absent/null, number, or string), and the builtin helpers the
code relies on (`parseFloat` after stripping `[,$%]`,
`toUpperCase`, `trim`, `toLocaleString`, `toFixed`, `Math.ceil`,
`Math.round`) are modelled as executable Lean functions on `ℚ` /
`String`.  All definitions are computable so concrete runs evaluate by
`decide` / `rfl`.
-/

namespace Cashflow

/-- A JavaScript value as it can appear in a cashflow input field:
absent (`undefined`/`null`), an (already numeric) number, or a string. -/
inductive JsVal where
  | undefined : JsVal
  | num : ℚ → JsVal
  | str : String → JsVal
deriving DecidableEq, Repr

/-- ASCII digit test used by the `parseFloat` model. -/
def isDigitCh (c : Char) : Bool := 48 ≤ c.toNat && c.toNat ≤ 57

/-- Numeric value of an ASCII digit character. -/
def digVal (c : Char) : ℕ := c.toNat - 48

/-- Take the longest digit prefix of a character list, returning the
digit values and the remainder. -/
def takeDigits : List Char → List ℕ × List Char
  | [] => ([], [])
  | c :: t =>
    if isDigitCh c then
      let p := takeDigits t
      (digVal c :: p.1, p.2)
    else ([], c :: t)

/-- Fold a digit list into the natural number it denotes. -/
def digitsToNat (ds : List ℕ) : ℕ := ds.foldl (fun a d => a * 10 + d) 0

/-- JavaScript whitespace (the ASCII part relevant here). -/
def isWsChar (c : Char) : Bool := c = ' ' || c = '\t' || c = '\n' || c = '\r'

/-- Exponent suffix of a JS decimal literal: `e`/`E`, optional sign,
digits.  If no digits follow the `e`, the exponent part is not part of
the parsed prefix and contributes a factor of 1 (JS `parseFloat("1e")`
is `1`). -/
def parseExp (l : List Char) : ℤ :=
  match l with
  | 'e' :: t | 'E' :: t =>
    match t with
    | '-' :: u => let p := takeDigits u
                  if p.1 = [] then 0 else -(digitsToNat p.1 : ℤ)
    | '+' :: u => let p := takeDigits u
                  if p.1 = [] then 0 else (digitsToNat p.1 : ℤ)
    | u => let p := takeDigits u
           if p.1 = [] then 0 else (digitsToNat p.1 : ℤ)
  | _ => 0

/-- Scale a rational by a (possibly negative) power of ten. -/
def scalePow10 (q : ℚ) (e : ℤ) : ℚ :=
  if 0 ≤ e then q * (10 : ℚ) ^ e.toNat else q / (10 : ℚ) ^ (-e).toNat

/-- Unsigned part of the `parseFloat` model: `digits [. digits] [exp]`
or `. digits [exp]`; `none` when no digits are found (JS `NaN`). -/
def parseFloatMag (l : List Char) : Option ℚ :=
  let ip := takeDigits l
  match ip.2 with
  | '.' :: t =>
    let fp := takeDigits t
    if ip.1 = [] ∧ fp.1 = [] then none
    else
      let base : ℚ := (digitsToNat ip.1 : ℚ) +
        (digitsToNat fp.1 : ℚ) / (10 : ℚ) ^ fp.1.length
      some (scalePow10 base (parseExp fp.2))
  | _ =>
    if ip.1 = [] then none
    else some (scalePow10 (digitsToNat ip.1 : ℚ) (parseExp ip.2))

/-- Model of JavaScript `parseFloat` on the finite decimal literals the
engine can meet: skip leading whitespace, optional sign, then the
longest decimal-literal prefix; `none` models `NaN`.  (Float infinities
have no counterpart in `ℚ` and do not arise from the engine's inputs.) -/
def jsParseFloat (s : String) : Option ℚ :=
  let l := s.data.dropWhile isWsChar
  match l with
  | '-' :: t => (parseFloatMag t).map (fun q => -q)
  | '+' :: t => parseFloatMag t
  | t => parseFloatMag t

/-- `String(v).replace(/[,$%]/g, "")`. -/
def stripCurrency (s : String) : String :=
  ⟨s.data.filter (fun c => !(c = ',' || c = '$' || c = '%'))⟩

/-- `function num(v) { if (typeof v === "number") return v; if (!v) return 0;
return parseFloat(String(v).replace(/[,$%]/g, "")) || 0; }`
(`NaN || 0` and `0 || 0` are both `0`, so a parse failure and a parsed
zero both yield `0`). -/
def num : JsVal → ℚ
  | .num q => q
  | .undefined => 0
  | .str s => if s = "" then 0 else (jsParseFloat (stripCurrency s)).getD 0

/-- `function pct(v) { const n = num(v); return n > 1 ? n / 100 : n; }` -/
def pct (v : JsVal) : ℚ :=
  let n := num v
  if n > 1 then n / 100 else n

/-- `function pmtAnnual(annualRate, years, principal)` — monthly-rate
annuity payment times 12; linear repayment when the rate is zero.  The
term is a natural number (the engine only ever passes 30). -/
def pmtAnnual (annualRate : ℚ) (years : ℕ) (principal : ℚ) : ℚ :=
  let r := annualRate / 12
  let n := years * 12
  if r = 0 then principal / n * 12
  else
    let monthlyPmt := principal * (r * (1 + r) ^ n) / ((1 + r) ^ n - 1)
    monthlyPmt * 12

/-- `function calcLMI(depositPct, loan)`. -/
def calcLMI (depositPct loan : ℚ) : ℚ :=
  if depositPct ≥ 0.20 then 0
  else if depositPct ≥ 0.15 then 0.01 * loan
  else if depositPct ≥ 0.12 then 0.017 * loan
  else if depositPct ≥ 0.10 then 0.025 * loan
  else 0.035 * loan

/-- ASCII upper-casing, as `String.prototype.toUpperCase` acts on the
jurisdiction codes in play. -/
def upperChar (c : Char) : Char :=
  if 97 ≤ c.toNat ∧ c.toNat ≤ 122 then Char.ofNat (c.toNat - 32) else c

/-- `s.toUpperCase()`. -/
def jsToUpper (s : String) : String := ⟨s.data.map upperChar⟩

/-- `s.trim()`. -/
def jsTrim (s : String) : String :=
  ⟨((s.data.dropWhile isWsChar).reverse.dropWhile isWsChar).reverse⟩

/-- `(state || "NSW")` for a string argument: the empty string is the
only falsy string. -/
def jsOrNSW (s : String) : String := if s = "" then "NSW" else s

/-- `(state || "NSW").toUpperCase().trim()` as used by `calcStampDuty`
and `calculateCashflow`. -/
def normStateTrim (s : String) : String := jsTrim (jsToUpper (jsOrNSW s))

/-- `(state || "NSW").toUpperCase()` as used by `calcMortgageFee`
(no `trim` there). -/
def normStateUp (s : String) : String := jsToUpper (jsOrNSW s)

/-- The NSW bracket chain of `calcStampDuty` (standard rates). -/
def nswDuty (p : ℚ) : ℚ :=
  if p ≤ 17000 then p * 0.0125
  else if p ≤ 36000 then 212.50 + (p - 17000) * 0.015
  else if p ≤ 97000 then 497.50 + (p - 36000) * 0.0175
  else if p ≤ 364000 then 1565 + (p - 97000) * 0.035
  else if p ≤ 1214000 then 10912.50 + (p - 364000) * 0.045
  else if p ≤ 3636000 then 49237.50 + (p - 1214000) * 0.055
  else 182447.50 + (p - 3636000) * 0.07

/-- The VIC bracket chain of `calcStampDuty`. -/
def vicDuty (p : ℚ) : ℚ :=
  if p ≤ 25000 then p * 0.014
  else if p ≤ 130000 then 350 + (p - 25000) * 0.024
  else if p ≤ 960000 then 2870 + (p - 130000) * 0.06
  else if p ≤ 2000000 then p * 0.055
  else 110000 + (p - 2000000) * 0.065

/-- The QLD bracket chain of `calcStampDuty` (per-$100 marginal form). -/
def qldDuty (p : ℚ) : ℚ :=
  if p ≤ 5000 then 0
  else if p ≤ 75000 then 1.50 * ((p - 5000) / 100)
  else if p ≤ 540000 then 1050 + 3.50 * ((p - 75000) / 100)
  else if p ≤ 1000000 then 17325 + 4.50 * ((p - 540000) / 100)
  else 38025 + 5.75 * ((p - 1000000) / 100)

/-- The WA bracket chain of `calcStampDuty`. -/
def waDuty (p : ℚ) : ℚ :=
  if p ≤ 120000 then p * 0.019
  else if p ≤ 150000 then 2280 + (p - 120000) * 0.0285
  else if p ≤ 360000 then 3135 + (p - 150000) * 0.038
  else if p ≤ 725000 then 11115 + (p - 360000) * 0.0475
  else 28453 + (p - 725000) * 0.0515

/-- The SA bracket chain of `calcStampDuty`. -/
def saDuty (p : ℚ) : ℚ :=
  if p ≤ 12000 then p * 0.01
  else if p ≤ 30000 then 120 + (p - 12000) * 0.02
  else if p ≤ 50000 then 480 + (p - 30000) * 0.03
  else if p ≤ 100000 then 1080 + (p - 50000) * 0.035
  else if p ≤ 200000 then 2830 + (p - 100000) * 0.04
  else if p ≤ 250000 then 6830 + (p - 200000) * 0.045
  else if p ≤ 300000 then 9080 + (p - 250000) * 0.05
  else if p ≤ 500000 then 11330 + (p - 300000) * 0.05
  else 21330 + (p - 500000) * 0.055

/-- The TAS bracket chain of `calcStampDuty`. -/
def tasDuty (p : ℚ) : ℚ :=
  if p ≤ 3000 then 50
  else if p ≤ 25000 then 50 + (p - 3000) * 0.0175
  else if p ≤ 75000 then 435 + (p - 25000) * 0.025
  else if p ≤ 200000 then 1685 + (p - 75000) * 0.035
  else if p ≤ 375000 then 6060 + (p - 200000) * 0.04
  else if p ≤ 725000 then 13060 + (p - 375000) * 0.0425
  else 27935 + (p - 725000) * 0.045

/-- The ACT branch of `calcStampDuty` (simplified unit-based
approximation, quadratic below 260000). -/
def actDuty (p : ℚ) : ℚ :=
  if p ≤ 260000 then p * 0.006 * (p / 100)
  else if p ≤ 300000 then p * 0.02273
  else if p ≤ 500000 then p * 0.0344
  else if p ≤ 750000 then p * 0.0419
  else if p ≤ 1000000 then p * 0.0458
  else if p ≤ 1455000 then p * 0.0494
  else p * 0.055

/-- The NT branch of `calcStampDuty` (simplified formula-based
approximation on `v = p / 1000`). -/
def ntDuty (p : ℚ) : ℚ :=
  let v := p / 1000
  if p ≤ 525000 then (0.06571441 * v * v + 15 * v) * 1
  else p * 0.0495

/-- Body of `calcStampDuty` after the state code has been normalised:
dispatch to the per-jurisdiction bracket chains above, with the flat 4%
fallback for an unknown code. -/
def stampDutyRaw (p : ℚ) (s : String) : ℚ :=
  if s = "NSW" then nswDuty p
  else if s = "VIC" then vicDuty p
  else if s = "QLD" then qldDuty p
  else if s = "WA" then waDuty p
  else if s = "SA" then saDuty p
  else if s = "TAS" then tasDuty p
  else if s = "ACT" then actDuty p
  else if s = "NT" then ntDuty p
  else p * 0.04

/-- `function calcStampDuty(price, state)`. -/
def calcStampDuty (price : ℚ) (state : String) : ℚ :=
  stampDutyRaw price (normStateTrim state)

/-- The `[transfer_fee, mortgage_reg]` table of `calcMortgageFee`;
`none` models an absent key. -/
def mortgageFees (s : String) : Option (ℚ × ℚ) :=
  if s = "NSW" then some (175.70, 175.70)
  else if s = "VIC" then some (128.50, 128.50)
  else if s = "QLD" then some (238.14, 238.14)
  else if s = "WA" then some (203.00, 203.00)
  else if s = "SA" then some (187.00, 187.00)
  else if s = "TAS" then some (217.00, 152.19)
  else if s = "ACT" then some (166.00, 166.00)
  else if s = "NT" then some (152.00, 165.00)
  else none

/-- `function calcMortgageFee(state, price)`:
`fees[s] || [175, 175]`, `total = tf * 2 + mr`,
`Math.ceil(total / 100) * 100`.  The `price` argument is accepted but
never read, exactly as in the source. -/
def calcMortgageFee (state : String) (price : ℚ) : ℚ :=
  let s := normStateUp state
  let pair := (mortgageFees s).getD (175, 175)
  let total := pair.1 * 2 + pair.2
  ((total / 100 : ℚ).ceil : ℚ) * 100

/-- `const LANDLORD_INS = { WA: 1500, QLD: 2000, VIC: 2000, NSW: 1500,
SA: 1500, TAS: 1500 }` — note: no ACT or NT key. -/
def LANDLORD_INS (s : String) : Option ℚ :=
  if s = "WA" then some 1500
  else if s = "QLD" then some 2000
  else if s = "VIC" then some 2000
  else if s = "NSW" then some 1500
  else if s = "SA" then some 1500
  else if s = "TAS" then some 1500
  else none

/-- `const MGMT_FEE_PCT = { WA: 0.09, QLD: 0.07, VIC: 0.055, NSW: 0.055,
SA: 0.07, TAS: 0.07 }` — note: no ACT or NT key. -/
def MGMT_FEE_PCT (s : String) : Option ℚ :=
  if s = "WA" then some 0.09
  else if s = "QLD" then some 0.07
  else if s = "VIC" then some 0.055
  else if s = "NSW" then some 0.055
  else if s = "SA" then some 0.07
  else if s = "TAS" then some 0.07
  else none

/-- The global `DEFAULTS` constant of the source. -/
structure DefaultsT where
  depositPercent : ℚ
  legals : ℚ
  pestReport : ℚ
  buyersAgencyFee : ℚ
  councilAnnually : ℚ
  buildingInsAnnually : ℚ
  otherAnnually : ℚ
  normalIORate : ℚ
  normalPIRate : ℚ
  smsfIORate : ℚ
  smsfPIRate : ℚ
  normalTaxBracket : ℚ
  smsfTaxBracket : ℚ

/-- `const DEFAULTS = { ... }` (from the cashflow prompt). -/
def DEFAULTS : DefaultsT :=
  { depositPercent := 0.20
    legals := 1500
    pestReport := 500
    buyersAgencyFee := 15000
    councilAnnually := 3000
    buildingInsAnnually := 1500
    otherAnnually := 2000
    normalIORate := 0.0625
    normalPIRate := 0.06
    smsfIORate := 0.0725
    smsfPIRate := 0.07
    normalTaxBracket := 0.42
    smsfTaxBracket := 0 }

/-! ### Number formatting

Models of `n.toLocaleString("en-AU", { minimumFractionDigits: 2,
maximumFractionDigits: 2 })` (two decimals, `,` thousands separators,
ties rounded away from zero), `toFixed(2)`, `toFixed(0)` and
`Math.round`. -/

/-- The decimal digit characters. -/
def digitChars : List Char := ['0', '1', '2', '3', '4', '5', '6', '7', '8', '9']

/-- The character of the last decimal digit of `n`. -/
def dig (n : ℕ) : Char := digitChars.getD (n % 10) '0'

/-- The last three decimal digits of `n`, zero-padded. -/
def pad3 (n : ℕ) : List Char := [dig (n / 100), dig (n / 10), dig n]

/-- The decimal digits of `n < 1000` without padding (1 to 3 chars). -/
def firstGroup (n : ℕ) : List Char :=
  if n < 10 then [dig n]
  else if n < 100 then [dig (n / 10), dig n]
  else [dig (n / 100), dig (n / 10), dig n]

/-- Fuelled recursion for `groupDigits` (structural, so it evaluates
definitionally); `fuel ≥ n` always suffices. -/
def groupDigitsF : ℕ → ℕ → List Char
  | 0, n => firstGroup n
  | fuel + 1, n =>
    if n < 1000 then firstGroup n
    else groupDigitsF fuel (n / 1000) ++ ',' :: pad3 n

/-- The decimal digits of `n` with a `,` before every group of three. -/
def groupDigits (n : ℕ) : List Char := groupDigitsF n n

/-- Fuelled recursion for `natChars`; `fuel ≥ n` always suffices. -/
def natCharsF : ℕ → ℕ → List Char
  | 0, n => [dig n]
  | fuel + 1, n => if n < 10 then [dig n] else natCharsF fuel (n / 10) ++ [dig n]

/-- The plain decimal digits of `n` (no grouping). -/
def natChars (n : ℕ) : List Char := natCharsF n n

/-- Two zero-padded digits (used for the cents part). -/
def twoFrac (n : ℕ) : List Char := [dig (n / 10), dig n]

/-- Hundredths of `a` (for `a ≥ 0`), rounding ties away from zero. -/
def centsOf (a : ℚ) : ℕ := (a * 100 + 1 / 2 : ℚ).floor.toNat

/-- Character list of the `toLocaleString` money format of `q`. -/
def fmtList (q : ℚ) : List Char :=
  let cents := centsOf |q|
  (if q < 0 then ['-'] else []) ++
    groupDigits (cents / 100) ++ '.' :: twoFrac (cents % 100)

/-- `function fmt(n) { return n.toLocaleString("en-AU",
{ minimumFractionDigits: 2, maximumFractionDigits: 2 }); }` -/
def fmt (q : ℚ) : String := ⟨fmtList q⟩

/-- `q.toFixed(2)`. -/
def toFixed2 (q : ℚ) : String :=
  let cents := centsOf |q|
  ⟨(if q < 0 then ['-'] else []) ++
    natChars (cents / 100) ++ '.' :: twoFrac (cents % 100)⟩

/-- `q.toFixed(0)`. -/
def toFixed0 (q : ℚ) : String :=
  ⟨(if q < 0 then ['-'] else []) ++ natChars ((|q| + 1 / 2 : ℚ).floor.toNat)⟩

/-- `Math.round(q)`: round half toward positive infinity. -/
def jsRound (q : ℚ) : ℤ := (q + 1 / 2 : ℚ).floor

/-- Decimal string of an integer. -/
def intStr (i : ℤ) : String :=
  if i < 0 then ⟨'-' :: natChars (-i).toNat⟩ else ⟨natChars i.toNat⟩

/-- Scanner for the reversed integer part of a comma-grouped decimal:
digit runs between commas are exactly 3, the final (leftmost) run has
length 1 to 3; `k` counts the digits of the current run. -/
def scanRev : List Char → ℕ → Bool
  | [], k => decide (1 ≤ k) && decide (k ≤ 3)
  | c :: t, k =>
    if c = ',' then (k == 3) && scanRev t 0
    else isDigitCh c && decide (k < 3) && scanRev t (k + 1)

/-- Drop one leading `-` sign if present. -/
def stripSign : List Char → List Char
  | [] => []
  | c :: t => if c = '-' then t else c :: t

/-- `s` matches `-?\d{1,3}(,\d{3})*\.\d\d` — the fixed two-decimal,
thousands-separated money convention of the output contract. -/
def isMoneyFormat (s : String) : Bool :=
  match (stripSign s.data).reverse with
  | d2 :: d1 :: p :: restRev =>
    (p == '.') && isDigitCh d1 && isDigitCh d2 && scanRev restRev 0
  | _ => false

/-! ### The cashflow aggregator -/

/-- The caller-supplied sparse input record of `calculateCashflow`.
Every numeric field is a `JsVal` (absent, number, or string); the two
label/date fields are strings when present. -/
structure CashflowInput where
  purchasePrice : JsVal := .undefined
  depositPercent : JsVal := .undefined
  stampDuty : JsVal := .undefined
  mortgageFee : JsVal := .undefined
  lmi : JsVal := .undefined
  legals : JsVal := .undefined
  pestReport : JsVal := .undefined
  strataReport : JsVal := .undefined
  buyersAgencyFee : JsVal := .undefined
  renovation : JsVal := .undefined
  lowerRentWeekly : JsVal := .undefined
  higherRentWeekly : JsVal := .undefined
  councilAnnually : JsVal := .undefined
  strataAnnually : JsVal := .undefined
  buildingInsAnnually : JsVal := .undefined
  landlordInsAnnually : JsVal := .undefined
  otherAnnually : JsVal := .undefined
  mgmtFeePercent : JsVal := .undefined
  interestOnlyRate : JsVal := .undefined
  principalInterestRate : JsVal := .undefined
  taxBracket : JsVal := .undefined
  totalExpenseLabel : Option String := none
  date : Option String := none

/-- The numeric locals of `calculateCashflow`, in source order, before
display formatting. -/
structure CashflowCore where
  price : ℚ
  depositPct : ℚ
  deposit : ℚ
  loan : ℚ
  lvrPct : ℚ
  stampDuty : ℚ
  mortgageFee : ℚ
  lmi : ℚ
  legals : ℚ
  pestReport : ℚ
  strataReport : ℚ
  buyersAgencyFee : ℚ
  renovation : ℚ
  totalFunds : ℚ
  lowerRentWk : ℚ
  higherRentWk : ℚ
  lowerRentAnn : ℚ
  higherRentAnn : ℚ
  yieldLow : ℚ
  yieldHigh : ℚ
  councilAnn : ℚ
  strataAnn : ℚ
  buildingInsAnn : ℚ
  landlordInsAnn : ℚ
  otherAnn : ℚ
  mgmtPct : ℚ
  mgmtAnn : ℚ
  ioRate : ℚ
  piRate : ℚ
  ioAnn : ℚ
  piAnn : ℚ
  totalExpAnn : ℚ
  totalExpLabel : String
  cfBTLowAnn : ℚ
  cfBTHighAnn : ℚ
  taxBracket : ℚ
  cfATLowAnn : ℚ
  cfATHighAnn : ℚ

/-- The numeric pass of `function calculateCashflow(input, state,
isSMSF)`, transcribed local by local. -/
def cashflowCore (input : CashflowInput) (state : String) (isSMSF : Bool) :
    CashflowCore :=
  let st := normStateTrim state
  let D := DEFAULTS
  let price := num input.purchasePrice
  let depositPct :=
    if input.depositPercent ≠ .undefined then pct input.depositPercent
    else D.depositPercent
  let deposit := price * depositPct
  let loan := price * (1 - depositPct)
  let lvrPct := (1 - depositPct) * 100
  let stampDuty :=
    if input.stampDuty ≠ .undefined then num input.stampDuty
    else calcStampDuty price st
  let mortgageFee :=
    if input.mortgageFee ≠ .undefined then num input.mortgageFee
    else calcMortgageFee st price
  let lmi :=
    if input.lmi ≠ .undefined then num input.lmi else calcLMI depositPct loan
  let legals := if input.legals ≠ .undefined then num input.legals else D.legals
  let pestReport :=
    if input.pestReport ≠ .undefined then num input.pestReport else D.pestReport
  let strataReport := num input.strataReport
  let buyersAgencyFee :=
    if input.buyersAgencyFee ≠ .undefined then num input.buyersAgencyFee
    else D.buyersAgencyFee
  let renovation := num input.renovation
  let totalFunds := deposit + stampDuty + mortgageFee + lmi + legals +
    pestReport + strataReport + buyersAgencyFee + renovation
  let lowerRentWk := num input.lowerRentWeekly
  let higherRentWkRaw := num input.higherRentWeekly
  let higherRentWk := if higherRentWkRaw = 0 then lowerRentWk else higherRentWkRaw
  let lowerRentAnn := lowerRentWk * 52
  let higherRentAnn := higherRentWk * 52
  let yieldBase := price + renovation
  let yieldLow := if yieldBase > 0 then lowerRentAnn / yieldBase * 100 else 0
  let yieldHigh := if yieldBase > 0 then higherRentAnn / yieldBase * 100 else 0
  let councilAnn :=
    if input.councilAnnually ≠ .undefined then num input.councilAnnually
    else D.councilAnnually
  let strataAnn := num input.strataAnnually
  let buildingInsAnn :=
    if input.buildingInsAnnually ≠ .undefined then num input.buildingInsAnnually
    else D.buildingInsAnnually
  let landlordInsAnn :=
    if input.landlordInsAnnually ≠ .undefined then num input.landlordInsAnnually
    else (LANDLORD_INS st).getD 1500
  let otherAnn :=
    if input.otherAnnually ≠ .undefined then num input.otherAnnually
    else D.otherAnnually
  let mgmtPct :=
    if input.mgmtFeePercent ≠ .undefined then pct input.mgmtFeePercent
    else (MGMT_FEE_PCT st).getD 0.055
  let mgmtAnn := lowerRentAnn * mgmtPct
  let ioRate :=
    if isSMSF then
      if input.interestOnlyRate ≠ .undefined then pct input.interestOnlyRate
      else D.smsfIORate
    else
      if input.interestOnlyRate ≠ .undefined then pct input.interestOnlyRate
      else D.normalIORate
  let piRate :=
    if isSMSF then
      if input.principalInterestRate ≠ .undefined then
        pct input.principalInterestRate
      else D.smsfPIRate
    else
      if input.principalInterestRate ≠ .undefined then
        pct input.principalInterestRate
      else D.normalPIRate
  let ioAnn := loan * ioRate
  let piAnn := pmtAnnual piRate 30 loan
  let totalExpAnn :=
    if isSMSF then
      councilAnn + strataAnn + buildingInsAnn + landlordInsAnn + otherAnn +
        mgmtAnn + piAnn
    else
      councilAnn + strataAnn + buildingInsAnn + landlordInsAnn + otherAnn +
        mgmtAnn + ioAnn
  let totalExpLabel :=
    if isSMSF then
      match input.totalExpenseLabel with
      | some l => if l = "" then "*Total Expense (with Principal & Interest loan)" else l
      | none => "*Total Expense (with Principal & Interest loan)"
    else
      match input.totalExpenseLabel with
      | some l => if l = "" then "*Total Expense (with Interest Only loan)" else l
      | none => "*Total Expense (with Interest Only loan)"
  let cfBTLowAnn := lowerRentAnn - totalExpAnn
  let cfBTHighAnn := higherRentAnn - totalExpAnn
  let taxBracket :=
    if isSMSF then
      if input.taxBracket ≠ .undefined then pct input.taxBracket
      else D.smsfTaxBracket
    else
      if input.taxBracket ≠ .undefined then pct input.taxBracket
      else D.normalTaxBracket
  let cfATLowAnn := cfBTLowAnn * (1 - taxBracket)
  let cfATHighAnn := cfBTHighAnn * (1 - taxBracket)
  { price := price, depositPct := depositPct, deposit := deposit, loan := loan
    lvrPct := lvrPct, stampDuty := stampDuty, mortgageFee := mortgageFee
    lmi := lmi, legals := legals, pestReport := pestReport
    strataReport := strataReport, buyersAgencyFee := buyersAgencyFee
    renovation := renovation, totalFunds := totalFunds
    lowerRentWk := lowerRentWk, higherRentWk := higherRentWk
    lowerRentAnn := lowerRentAnn, higherRentAnn := higherRentAnn
    yieldLow := yieldLow, yieldHigh := yieldHigh, councilAnn := councilAnn
    strataAnn := strataAnn, buildingInsAnn := buildingInsAnn
    landlordInsAnn := landlordInsAnn, otherAnn := otherAnn
    mgmtPct := mgmtPct, mgmtAnn := mgmtAnn, ioRate := ioRate, piRate := piRate
    ioAnn := ioAnn, piAnn := piAnn, totalExpAnn := totalExpAnn
    totalExpLabel := totalExpLabel, cfBTLowAnn := cfBTLowAnn
    cfBTHighAnn := cfBTHighAnn, taxBracket := taxBracket
    cfATLowAnn := cfATLowAnn, cfATHighAnn := cfATHighAnn }

/-- The flat record of display strings returned by `calculateCashflow`. -/
structure CashflowResult where
  date : String
  purchasePrice : String
  depositPercent : String
  lvrPercent : String
  loanAmount : String
  depositAmount : String
  depositPercentLabel : String
  stampDuty : String
  lmi : String
  mortgageFee : String
  legals : String
  pestReport : String
  strataReport : String
  buyersAgencyFee : String
  renovation : String
  totalFundsRequired : String
  yieldLowRent : String
  yieldHighRent : String
  lowerRentWeekly : String
  lowerRentMonthly : String
  lowerRentAnnually : String
  higherRentWeekly : String
  higherRentMonthly : String
  higherRentAnnually : String
  councilWeekly : String
  councilMonthly : String
  councilAnnually : String
  strataWeekly : String
  strataMonthly : String
  strataAnnually : String
  buildingInsWeekly : String
  buildingInsMonthly : String
  buildingInsAnnually : String
  landlordInsWeekly : String
  landlordInsMonthly : String
  landlordInsAnnually : String
  otherWeekly : String
  otherMonthly : String
  otherAnnually : String
  mgmtFeePercent : String
  mgmtFeeWeekly : String
  mgmtFeeMonthly : String
  mgmtFeeAnnually : String
  interestOnlyRate : String
  interestOnlyWeekly : String
  interestOnlyMonthly : String
  interestOnlyAnnually : String
  principalInterestRate : String
  principalInterestWeekly : String
  principalInterestMonthly : String
  principalInterestAnnually : String
  totalExpenseLabel : String
  totalExpenseWeekly : String
  totalExpenseMonthly : String
  totalExpenseAnnually : String
  cfBeforeTaxLowerWeekly : String
  cfBeforeTaxLowerMonthly : String
  cfBeforeTaxLowerAnnually : String
  cfBeforeTaxHigherWeekly : String
  cfBeforeTaxHigherMonthly : String
  cfBeforeTaxHigherAnnually : String
  taxBracket : String
  disclaimerRate : String
  cfAfterTaxLowerWeekly : String
  cfAfterTaxLowerMonthly : String
  cfAfterTaxLowerAnnually : String
  cfAfterTaxHigherWeekly : String
  cfAfterTaxHigherMonthly : String
  cfAfterTaxHigherAnnually : String

/-- `function calculateCashflow(input, state, isSMSF)` — the returned
object, field by field.  `today` stands for the impure
`new Date().toLocaleDateString("en-AU")` read used only as the default
of the `date` field. -/
def calculateCashflow (input : CashflowInput) (state : String)
    (isSMSF : Bool) (today : String) : CashflowResult :=
  let c := cashflowCore input state isSMSF
  let w := fun (a : ℚ) => a / 52
  let m := fun (a : ℚ) => a / 12
  { date :=
      match input.date with
      | some d => if d = "" then today else d
      | none => today
    purchasePrice := fmt c.price
    depositPercent := intStr (jsRound (c.depositPct * 100)) ++ "%"
    lvrPercent := intStr (jsRound c.lvrPct) ++ "%"
    loanAmount := fmt c.loan
    depositAmount := fmt c.deposit
    depositPercentLabel := intStr (jsRound (c.depositPct * 100)) ++ "%"
    stampDuty := fmt c.stampDuty
    lmi := if c.lmi = 0 then "" else fmt c.lmi
    mortgageFee := fmt c.mortgageFee
    legals := fmt c.legals
    pestReport := fmt c.pestReport
    strataReport := if c.strataReport = 0 then "" else fmt c.strataReport
    buyersAgencyFee := fmt c.buyersAgencyFee
    renovation := if c.renovation = 0 then "" else fmt c.renovation
    totalFundsRequired := fmt c.totalFunds
    yieldLowRent := toFixed2 c.yieldLow ++ "%"
    yieldHighRent := toFixed2 c.yieldHigh ++ "%"
    lowerRentWeekly := fmt c.lowerRentWk
    lowerRentMonthly := fmt (m c.lowerRentAnn)
    lowerRentAnnually := fmt c.lowerRentAnn
    higherRentWeekly := fmt c.higherRentWk
    higherRentMonthly := fmt (m c.higherRentAnn)
    higherRentAnnually := fmt c.higherRentAnn
    councilWeekly := fmt (w c.councilAnn)
    councilMonthly := fmt (m c.councilAnn)
    councilAnnually := fmt c.councilAnn
    strataWeekly := if c.strataAnn = 0 then "" else fmt (w c.strataAnn)
    strataMonthly := if c.strataAnn = 0 then "" else fmt (m c.strataAnn)
    strataAnnually := if c.strataAnn = 0 then "" else fmt c.strataAnn
    buildingInsWeekly :=
      if c.buildingInsAnn = 0 then "" else fmt (w c.buildingInsAnn)
    buildingInsMonthly :=
      if c.buildingInsAnn = 0 then "" else fmt (m c.buildingInsAnn)
    buildingInsAnnually :=
      if c.buildingInsAnn = 0 then "" else fmt c.buildingInsAnn
    landlordInsWeekly := fmt (w c.landlordInsAnn)
    landlordInsMonthly := fmt (m c.landlordInsAnn)
    landlordInsAnnually := fmt c.landlordInsAnn
    otherWeekly := if c.otherAnn = 0 then "" else fmt (w c.otherAnn)
    otherMonthly := if c.otherAnn = 0 then "" else fmt (m c.otherAnn)
    otherAnnually := if c.otherAnn = 0 then "" else fmt c.otherAnn
    mgmtFeePercent := toFixed2 (c.mgmtPct * 100) ++ "%"
    mgmtFeeWeekly := fmt (w c.mgmtAnn)
    mgmtFeeMonthly := fmt (m c.mgmtAnn)
    mgmtFeeAnnually := fmt c.mgmtAnn
    interestOnlyRate := toFixed2 (c.ioRate * 100) ++ "%"
    interestOnlyWeekly := fmt (w c.ioAnn)
    interestOnlyMonthly := fmt (m c.ioAnn)
    interestOnlyAnnually := fmt c.ioAnn
    principalInterestRate := toFixed2 (c.piRate * 100) ++ "%"
    principalInterestWeekly := fmt (w c.piAnn)
    principalInterestMonthly := fmt (m c.piAnn)
    principalInterestAnnually := fmt c.piAnn
    totalExpenseLabel := c.totalExpLabel
    totalExpenseWeekly := fmt (w c.totalExpAnn)
    totalExpenseMonthly := fmt (m c.totalExpAnn)
    totalExpenseAnnually := fmt c.totalExpAnn
    cfBeforeTaxLowerWeekly := fmt |w c.cfBTLowAnn|
    cfBeforeTaxLowerMonthly := fmt |m c.cfBTLowAnn|
    cfBeforeTaxLowerAnnually := fmt |c.cfBTLowAnn|
    cfBeforeTaxHigherWeekly := fmt |w c.cfBTHighAnn|
    cfBeforeTaxHigherMonthly := fmt |m c.cfBTHighAnn|
    cfBeforeTaxHigherAnnually := fmt |c.cfBTHighAnn|
    taxBracket := intStr (jsRound (c.taxBracket * 100)) ++ "%"
    disclaimerRate :=
      if isSMSF then toFixed0 (DEFAULTS.smsfPIRate * 100) ++ "%"
      else toFixed0 (c.ioRate * 100) ++ "%"
    cfAfterTaxLowerWeekly := fmt |w c.cfATLowAnn|
    cfAfterTaxLowerMonthly := fmt |m c.cfATLowAnn|
    cfAfterTaxLowerAnnually := fmt |c.cfATLowAnn|
    cfAfterTaxHigherWeekly := fmt |w c.cfATHighAnn|
    cfAfterTaxHigherMonthly := fmt |m c.cfATHighAnn|
    cfAfterTaxHigherAnnually := fmt |c.cfATHighAnn| }

/-- The end-to-end scenario input of §8 of the specification:
price 600000, lower rent 500/week, deposit 20%. -/
def endToEndInput : CashflowInput :=
  { purchasePrice := .num 600000
    lowerRentWeekly := .num 500
    depositPercent := .num 0.20 }

/-- An input whose numeric fields are present but unparseable strings. -/
def garbageInput : CashflowInput :=
  { purchasePrice := .str "abc"
    legals := .str "$$$"
    lowerRentWeekly := .str "n/a" }

/-! ### Projection equations for the aggregator locals -/

theorem core_depositPct (input : CashflowInput) (state : String) (f : Bool) :
    (cashflowCore input state f).depositPct =
      (if input.depositPercent ≠ .undefined then pct input.depositPercent
       else DEFAULTS.depositPercent) := rfl

theorem core_landlordInsAnn (input : CashflowInput) (state : String) (f : Bool) :
    (cashflowCore input state f).landlordInsAnn =
      (if input.landlordInsAnnually ≠ .undefined then num input.landlordInsAnnually
       else (LANDLORD_INS (normStateTrim state)).getD 1500) := rfl

theorem core_mgmtPct (input : CashflowInput) (state : String) (f : Bool) :
    (cashflowCore input state f).mgmtPct =
      (if input.mgmtFeePercent ≠ .undefined then pct input.mgmtFeePercent
       else (MGMT_FEE_PCT (normStateTrim state)).getD 0.055) := rfl

theorem core_ioRate (input : CashflowInput) (state : String) (f : Bool) :
    (cashflowCore input state f).ioRate =
      (if f then
        if input.interestOnlyRate ≠ .undefined then pct input.interestOnlyRate
        else DEFAULTS.smsfIORate
       else
        if input.interestOnlyRate ≠ .undefined then pct input.interestOnlyRate
        else DEFAULTS.normalIORate) := rfl

theorem core_piRate (input : CashflowInput) (state : String) (f : Bool) :
    (cashflowCore input state f).piRate =
      (if f then
        if input.principalInterestRate ≠ .undefined then
          pct input.principalInterestRate
        else DEFAULTS.smsfPIRate
       else
        if input.principalInterestRate ≠ .undefined then
          pct input.principalInterestRate
        else DEFAULTS.normalPIRate) := rfl

theorem core_taxBracket (input : CashflowInput) (state : String) (f : Bool) :
    (cashflowCore input state f).taxBracket =
      (if f then
        if input.taxBracket ≠ .undefined then pct input.taxBracket
        else DEFAULTS.smsfTaxBracket
       else
        if input.taxBracket ≠ .undefined then pct input.taxBracket
        else DEFAULTS.normalTaxBracket) := rfl

theorem core_yieldLow (input : CashflowInput) (state : String) (f : Bool) :
    (cashflowCore input state f).yieldLow =
      (if num input.purchasePrice + num input.renovation > 0 then
        num input.lowerRentWeekly * 52 /
          (num input.purchasePrice + num input.renovation) * 100
       else 0) := rfl

theorem core_yieldHigh (input : CashflowInput) (state : String) (f : Bool) :
    (cashflowCore input state f).yieldHigh =
      (if num input.purchasePrice + num input.renovation > 0 then
        (if num input.higherRentWeekly = 0 then num input.lowerRentWeekly
         else num input.higherRentWeekly) * 52 /
          (num input.purchasePrice + num input.renovation) * 100
       else 0) := rfl

theorem res_yieldLowRent (input : CashflowInput) (state : String) (f : Bool)
    (today : String) :
    (calculateCashflow input state f today).yieldLowRent =
      toFixed2 (cashflowCore input state f).yieldLow ++ "%" := rfl

theorem res_yieldHighRent (input : CashflowInput) (state : String) (f : Bool)
    (today : String) :
    (calculateCashflow input state f today).yieldHighRent =
      toFixed2 (cashflowCore input state f).yieldHigh ++ "%" := rfl

/-! ### Claims -/

/-- **C2** — `calcLMI`: deposit ratio ≥ 0.20 yields 0; below that, a
single-step rate keyed to inclusive lower-bound bands checked high to
low (≥0.15 → 1.0%, ≥0.12 → 1.7%, ≥0.10 → 2.5%, <0.10 → 3.5%) applied to
the loan principal; exactly 0.15 gets the 1.0% rate. -/
theorem calcLMI_bands (d L : ℚ) :
    (0.20 ≤ d → calcLMI d L = 0) ∧
    (0.15 ≤ d → d < 0.20 → calcLMI d L = 0.01 * L) ∧
    (0.12 ≤ d → d < 0.15 → calcLMI d L = 0.017 * L) ∧
    (0.10 ≤ d → d < 0.12 → calcLMI d L = 0.025 * L) ∧
    (d < 0.10 → calcLMI d L = 0.035 * L) ∧
    calcLMI 0.15 L = 0.01 * L := by
  unfold calcLMI
  refine ⟨?_, ?_, ?_, ?_, ?_, ?_⟩ <;> intros <;> split_ifs <;>
    first
    | rfl
    | linarith

/-- Witness for `calcLMI_bands` at the tie-break deposit ratio 0.15. -/
theorem calcLMI_bands_witness : calcLMI 0.15 100000 = 0.01 * 100000 :=
  (calcLMI_bands 0.15 100000).2.1 (by norm_num) (by norm_num)

unseal Rat.mul Rat.add Rat.sub Rat.inv Rat.ofScientific in
/-- **C3 (amended)** — `pmtAnnual` is 12 × the standard monthly annuity
payment (monthly rate = rate/12, n = years×12) for a nonzero rate, and
linear repayment `principal / n * 12` at rate 0, with
`pmtAnnual 0 30 300000 = 10000` exactly; however the closed-form value
at (0.06, 30, 300000) is ≈ 21583.81, not the ≈ 21719.69 the claim
quotes. -/
theorem pmtAnnual_amended :
    (∀ (rate : ℚ) (years : ℕ) (principal : ℚ), rate = 0 →
      pmtAnnual rate years principal = principal / (years * 12 : ℕ) * 12) ∧
    pmtAnnual 0 30 300000 = 10000 ∧
    (∀ (rate : ℚ) (years : ℕ) (principal : ℚ), rate ≠ 0 →
      pmtAnnual rate years principal =
        principal * (rate / 12 * (1 + rate / 12) ^ (years * 12)) /
          ((1 + rate / 12) ^ (years * 12) - 1) * 12) ∧
    |pmtAnnual (6/100) 30 300000 - 21583.81| < 1/100 := by
  refine ⟨?_, by decide, ?_, by decide⟩
  · intro rate years principal h
    subst h
    simp [pmtAnnual]
  · intro rate years principal h
    unfold pmtAnnual
    rw [if_neg (div_ne_zero h (by norm_num))]

unseal Rat.mul Rat.add Rat.sub Rat.inv Rat.ofScientific in
/-- Witness for `pmtAnnual_amended`: both branches at concrete inputs. -/
theorem pmtAnnual_amended_witness :
    pmtAnnual 0 2 2400 = 2400 / ((2 * 12 : ℕ) : ℚ) * 12 ∧
    pmtAnnual (6/100) 30 300000 =
      300000 * ((6/100) / 12 * (1 + (6/100) / 12) ^ (30 * 12)) /
        ((1 + (6/100) / 12) ^ (30 * 12) - 1) * 12 :=
  ⟨pmtAnnual_amended.1 0 2 2400 rfl,
   pmtAnnual_amended.2.2.1 (6/100) 30 300000 (by norm_num)⟩

unseal Rat.mul Rat.add Rat.sub Rat.inv Rat.ofScientific in
/-- **C3 counterexample** — the value the claim quotes, ≈ 21719.69, is
more than 100 away from what `pmtAnnual(0.06, 30, 300000)` actually
returns (≈ 21583.81), far outside floating-point tolerance. -/
theorem pmtAnnual_quoted_value_counterexample :
    100 < |pmtAnnual (6/100) 30 300000 - 21719.69| := by decide

unseal Rat.mul Rat.add Rat.sub Rat.inv Rat.ofScientific in
/-- **C4** — `calcMortgageFee` equals `(2 × transfer-fee +
mortgage-registration-fee)` for the (possibly fallback) jurisdiction
pair, rounded up to the nearest 100; it is a positive multiple of 100
and ignores its price argument. -/
theorem calcMortgageFee_spec (state : String) (p1 p2 : ℚ) :
    calcMortgageFee state p1 = calcMortgageFee state p2 ∧
    calcMortgageFee state p1 =
      ((((mortgageFees (normStateUp state)).getD (175, 175)).1 * 2 +
        ((mortgageFees (normStateUp state)).getD (175, 175)).2) / 100 :
          ℚ).ceil * 100 ∧
    ∃ k : ℕ, 0 < k ∧ calcMortgageFee state p1 = 100 * k := by
  refine ⟨rfl, rfl, ?_⟩
  · simp only [calcMortgageFee, mortgageFees]
    split_ifs <;>
      first
      | exact ⟨6, by norm_num, by decide⟩
      | exact ⟨4, by norm_num, by decide⟩
      | exact ⟨8, by norm_num, by decide⟩
      | exact ⟨7, by norm_num, by decide⟩
      | exact ⟨5, by norm_num, by decide⟩

unseal Rat.mul Rat.add Rat.sub Rat.inv Rat.ofScientific in
/-- **C5** — the aggregator's total annual expense adds exactly one
loan-servicing cost, selected by the loan-type flag: the interest-only
cost (`loan × ioRate`) for a standard deal, the annuity cost
(`pmtAnnual piRate 30 loan`) for an SMSF deal; the SMSF tax-bracket
default is 0 versus 0.42 for standard; and on the §8 end-to-end input
the two variants produce different total-expense figures. -/
theorem totalExpense_loanType_selection (input : CashflowInput)
    (state : String) (f : Bool) (ht : input.taxBracket = .undefined) :
    ((cashflowCore input state f).ioAnn =
      (cashflowCore input state f).loan * (cashflowCore input state f).ioRate) ∧
    ((cashflowCore input state f).piAnn =
      pmtAnnual (cashflowCore input state f).piRate 30
        (cashflowCore input state f).loan) ∧
    ((cashflowCore input state true).totalExpAnn =
      (cashflowCore input state true).councilAnn +
      (cashflowCore input state true).strataAnn +
      (cashflowCore input state true).buildingInsAnn +
      (cashflowCore input state true).landlordInsAnn +
      (cashflowCore input state true).otherAnn +
      (cashflowCore input state true).mgmtAnn +
      (cashflowCore input state true).piAnn) ∧
    ((cashflowCore input state false).totalExpAnn =
      (cashflowCore input state false).councilAnn +
      (cashflowCore input state false).strataAnn +
      (cashflowCore input state false).buildingInsAnn +
      (cashflowCore input state false).landlordInsAnn +
      (cashflowCore input state false).otherAnn +
      (cashflowCore input state false).mgmtAnn +
      (cashflowCore input state false).ioAnn) ∧
    (cashflowCore input state true).taxBracket = 0 ∧
    (cashflowCore input state false).taxBracket = 0.42 ∧
    (cashflowCore endToEndInput "NSW" true).totalExpAnn ≠
      (cashflowCore endToEndInput "NSW" false).totalExpAnn := by
  refine ⟨rfl, rfl, rfl, rfl, ?_, ?_, by decide⟩
  · rw [core_taxBracket, ht]
    rfl
  · rw [core_taxBracket, ht]
    rfl

/-- Witness for `totalExpense_loanType_selection` on the empty input. -/
theorem totalExpense_loanType_selection_witness :
    (cashflowCore {} "QLD" true).taxBracket = 0 ∧
    (cashflowCore {} "QLD" false).taxBracket = 0.42 :=
  ⟨(totalExpense_loanType_selection {} "QLD" true rfl).2.2.2.2.1,
   (totalExpense_loanType_selection {} "QLD" true rfl).2.2.2.2.2.1⟩

unseal Rat.mul Rat.add Rat.sub Rat.inv Rat.ofScientific in
/-- **C6** — the aggregator never fails: numeric fields are parsed by
`num`, which sends absent values and unparseable strings to 0 and keeps
parsed values; every branch of the pipeline is a total function, and on
an input whose fields are absent or garbage strings in an unknown
jurisdiction the engine still produces the fully-defaulted record
(e.g. total funds 0 deposit + 0 stamp duty + 600 fallback mortgage fee
+ 0 unparseable legals + 500 pest + 15000 buyer's agency = 16,100). -/
theorem calculateCashflow_never_fails (s : String) (q : ℚ)
    (input : CashflowInput) (state : String) (f : Bool) (today : String) :
    num .undefined = 0 ∧
    num (.num q) = q ∧
    (jsParseFloat (stripCurrency s) = none → num (.str s) = 0) ∧
    (∀ r : ℚ, jsParseFloat (stripCurrency s) = some r → num (.str s) = r) ∧
    (cashflowCore ({} : CashflowInput) state f).legals = 1500 ∧
    (cashflowCore ({} : CashflowInput) state f).pestReport = 500 ∧
    (cashflowCore garbageInput state f).price = 0 ∧
    (cashflowCore garbageInput state f).legals = 0 ∧
    (calculateCashflow garbageInput "??" f today).totalFundsRequired =
      "16,100.00" ∧
    (calculateCashflow garbageInput "??" f today).stampDuty = "0.00" := by
  refine ⟨rfl, rfl, ?_, ?_, rfl, rfl, rfl, rfl, ?_, ?_⟩
  · intro h
    by_cases hs : s = ""
    · simp [num, hs]
    · simp [num, hs, h]
  · intro r h
    by_cases hs : s = ""
    · rw [hs, show jsParseFloat (stripCurrency "") = none from rfl] at h
      exact Option.noConfusion h
    · simp [num, hs, h]
  · cases f <;> rfl
  · cases f <;> rfl

/-- Witness for `calculateCashflow_never_fails`: an unparseable string
degrades to 0. -/
theorem calculateCashflow_never_fails_witness :
    num (.str "hello") = 0 :=
  (calculateCashflow_never_fails "hello" 0 {} "NSW" false "t").2.2.1 rfl

unseal Rat.mul Rat.add Rat.sub Rat.inv Rat.ofScientific in
/-- **C7** — `pct` implements the uniform dual convention (parsed value
`> 1` is divided by 100, `≤ 1` is kept, so exactly 1 means the fraction
1), and every one of the five percentage-typed fields of the aggregator
(deposit, management fee, interest-only rate, principal-and-interest
rate, tax bracket) goes through `pct` when supplied. -/
theorem pct_uniform_convention (input : CashflowInput) (state : String)
    (f : Bool) (q : ℚ) :
    (1 < q → pct (.num q) = q / 100) ∧
    (q ≤ 1 → pct (.num q) = q) ∧
    pct (.num 1) = 1 ∧
    (input.depositPercent ≠ .undefined →
      (cashflowCore input state f).depositPct = pct input.depositPercent) ∧
    (input.mgmtFeePercent ≠ .undefined →
      (cashflowCore input state f).mgmtPct = pct input.mgmtFeePercent) ∧
    (input.interestOnlyRate ≠ .undefined →
      (cashflowCore input state f).ioRate = pct input.interestOnlyRate) ∧
    (input.principalInterestRate ≠ .undefined →
      (cashflowCore input state f).piRate = pct input.principalInterestRate) ∧
    (input.taxBracket ≠ .undefined →
      (cashflowCore input state f).taxBracket = pct input.taxBracket) := by
  refine ⟨?_, ?_, by decide, ?_, ?_, ?_, ?_, ?_⟩
  · intro h
    simp only [pct, num]
    rw [if_pos h]
  · intro h
    simp only [pct, num]
    rw [if_neg (by linarith)]
  · intro h
    rw [core_depositPct, if_pos h]
  · intro h
    rw [core_mgmtPct, if_pos h]
  · intro h
    rw [core_ioRate]
    cases f <;> simp [h]
  · intro h
    rw [core_piRate]
    cases f <;> simp [h]
  · intro h
    rw [core_taxBracket]
    cases f <;> simp [h]

unseal Rat.mul Rat.add Rat.sub Rat.inv Rat.ofScientific in
/-- Witness for `pct_uniform_convention`: whole-percent 20 becomes 0.20,
fraction 0.8 stays, and a supplied deposit percent reaches the core via
`pct`. -/
theorem pct_uniform_convention_witness :
    pct (.num 20) = 20 / 100 ∧
    pct (.num (4/5)) = 4/5 ∧
    (cashflowCore endToEndInput "NSW" false).depositPct =
      pct endToEndInput.depositPercent :=
  ⟨(pct_uniform_convention {} "NSW" false 20).1 (by norm_num),
   (pct_uniform_convention {} "NSW" false (4/5)).2.1 (by norm_num),
   (pct_uniform_convention endToEndInput "NSW" false 0).2.2.2.1 (by decide)⟩

unseal Rat.mul Rat.add Rat.sub Rat.inv Rat.ofScientific in
/-- **C9** — when the parsed purchase price and renovation are both 0,
the yield guard takes the zero branch (no division) and both yield
output fields are exactly `"0.00%"`, for any rents, jurisdiction, date,
and loan-type flag. -/
theorem yield_guard_zero_denominator (input : CashflowInput)
    (state : String) (f : Bool) (today : String)
    (hp : num input.purchasePrice = 0) (hr : num input.renovation = 0) :
    (calculateCashflow input state f today).yieldLowRent = "0.00%" ∧
    (calculateCashflow input state f today).yieldHighRent = "0.00%" := by
  constructor
  · rw [res_yieldLowRent, core_yieldLow, hp, hr]
    norm_num
    rfl
  · rw [res_yieldHighRent, core_yieldHigh, hp, hr]
    norm_num
    rfl

/-- Witness for `yield_guard_zero_denominator`: the empty input with
rents supplied but price absent. -/
theorem yield_guard_zero_denominator_witness :
    (calculateCashflow { lowerRentWeekly := .num 500 } "VIC" true
      "today").yieldLowRent = "0.00%" ∧
    (calculateCashflow { lowerRentWeekly := .num 500 } "VIC" true
      "today").yieldHighRent = "0.00%" :=
  yield_guard_zero_denominator { lowerRentWeekly := .num 500 } "VIC" true
    "today" rfl rfl

unseal Rat.mul Rat.add Rat.sub Rat.inv Rat.ofScientific in
/-- **C10** — ACT and NT have their own stamp-duty branches and
mortgage-fee entries, but the landlord-insurance and management-fee
default tables list only the six states, so for ACT and NT the
aggregator falls back to the unknown-jurisdiction defaults: 1500
annually for landlord insurance and 5.5% management fee. -/
theorem act_nt_insurance_mgmt_fallback (input : CashflowInput) (f : Bool)
    (hl : input.landlordInsAnnually = .undefined)
    (hm : input.mgmtFeePercent = .undefined) :
    LANDLORD_INS "ACT" = none ∧ LANDLORD_INS "NT" = none ∧
    MGMT_FEE_PCT "ACT" = none ∧ MGMT_FEE_PCT "NT" = none ∧
    (cashflowCore input "ACT" f).landlordInsAnn = 1500 ∧
    (cashflowCore input "NT" f).landlordInsAnn = 1500 ∧
    (cashflowCore input "ACT" f).mgmtPct = 0.055 ∧
    (cashflowCore input "NT" f).mgmtPct = 0.055 ∧
    mortgageFees "ACT" = some (166, 166) ∧
    mortgageFees "NT" = some (152, 165) ∧
    calcStampDuty 400000 "ACT" = 400000 * 0.0344 ∧
    calcStampDuty 400000 "ACT" ≠ 400000 * 0.04 := by
  refine ⟨by decide, by decide, by decide, by decide, ?_, ?_, ?_, ?_,
    by decide, by decide, by decide, by decide⟩
  · rw [core_landlordInsAnn, hl]
    decide
  · rw [core_landlordInsAnn, hl]
    decide
  · rw [core_mgmtPct, hm]
    decide
  · rw [core_mgmtPct, hm]
    decide

/-- Witness for `act_nt_insurance_mgmt_fallback` on the empty input. -/
theorem act_nt_insurance_mgmt_fallback_witness :
    (cashflowCore {} "ACT" false).landlordInsAnn = 1500 ∧
    (cashflowCore {} "NT" false).mgmtPct = 0.055 :=
  ⟨(act_nt_insurance_mgmt_fallback {} false rfl rfl).2.2.2.2.1,
   (act_nt_insurance_mgmt_fallback {} false rfl rfl).2.2.2.2.2.2.2.1⟩

/-! ### The money-format invariant of `fmt` -/

theorem isDigitCh_dig (n : ℕ) : isDigitCh (dig n) = true := by
  have h10 : ∀ k, k < 10 → isDigitCh (digitChars.getD k '0') = true := by decide
  exact h10 (n % 10) (Nat.mod_lt _ (by norm_num))

theorem dig_eq_comma_iff (n : ℕ) : (dig n = ',') ↔ False := by
  refine iff_false_intro fun h => ?_
  have h1 := isDigitCh_dig n
  rw [h] at h1
  exact absurd h1 (by decide)

theorem dig_eq_dash_iff (n : ℕ) : (dig n = '-') ↔ False := by
  refine iff_false_intro fun h => ?_
  have h1 := isDigitCh_dig n
  rw [h] at h1
  exact absurd h1 (by decide)

theorem scanRev_firstGroup (n : ℕ) : scanRev (firstGroup n).reverse 0 = true := by
  unfold firstGroup
  split_ifs <;> simp [scanRev, dig_eq_comma_iff, isDigitCh_dig]

theorem scanRev_groupDigitsF :
    ∀ fuel n : ℕ, n ≤ fuel → scanRev (groupDigitsF fuel n).reverse 0 = true := by
  intro fuel
  induction fuel with
  | zero => exact fun n _ => scanRev_firstGroup n
  | succ fuel ih =>
    intro n hn
    by_cases h : n < 1000
    · have hg : groupDigitsF (fuel + 1) n = firstGroup n := by
        simp [groupDigitsF, h]
      rw [hg]
      exact scanRev_firstGroup n
    · have hg : groupDigitsF (fuel + 1) n =
          groupDigitsF fuel (n / 1000) ++ ',' :: pad3 n := by
        simp [groupDigitsF, h]
      have hrec : n / 1000 ≤ fuel := by
        have := Nat.div_lt_self (show 0 < n by omega) (show 1 < 1000 by omega)
        omega
      rw [hg, List.reverse_append]
      simp [pad3, scanRev, dig_eq_comma_iff, isDigitCh_dig, ih _ hrec]

theorem scanRev_groupDigits (n : ℕ) : scanRev (groupDigits n).reverse 0 = true :=
  scanRev_groupDigitsF n n le_rfl

theorem groupDigitsF_head :
    ∀ fuel n : ℕ, ∃ k t, groupDigitsF fuel n = dig k :: t := by
  intro fuel
  induction fuel with
  | zero =>
    intro n
    show ∃ k t, firstGroup n = dig k :: t
    unfold firstGroup
    split_ifs
    · exact ⟨n, [], rfl⟩
    · exact ⟨n / 10, [dig n], rfl⟩
    · exact ⟨n / 100, [dig (n / 10), dig n], rfl⟩
  | succ fuel ih =>
    intro n
    by_cases h : n < 1000
    · have hg : groupDigitsF (fuel + 1) n = firstGroup n := by
        simp [groupDigitsF, h]
      rw [hg]
      unfold firstGroup
      split_ifs
      · exact ⟨n, [], rfl⟩
      · exact ⟨n / 10, [dig n], rfl⟩
      · exact ⟨n / 100, [dig (n / 10), dig n], rfl⟩
    · obtain ⟨k, t, hk⟩ := ih (n / 1000)
      refine ⟨k, t ++ ',' :: pad3 n, ?_⟩
      simp [groupDigitsF, h, hk]

theorem stripSign_groupDigits_append (w : ℕ) (suf : List Char) :
    stripSign (groupDigits w ++ suf) = groupDigits w ++ suf := by
  obtain ⟨k, t, hk⟩ := groupDigitsF_head w w
  unfold groupDigits
  rw [hk]
  simp [stripSign, dig_eq_dash_iff]

theorem isMoneyFormat_body (w f : ℕ) (pre : List Char)
    (h : stripSign (pre ++ (groupDigits w ++ '.' :: twoFrac f)) =
      groupDigits w ++ '.' :: twoFrac f) :
    isMoneyFormat ⟨pre ++ (groupDigits w ++ '.' :: twoFrac f)⟩ = true := by
  unfold isMoneyFormat
  rw [show (⟨pre ++ (groupDigits w ++ '.' :: twoFrac f)⟩ : String).data =
    pre ++ (groupDigits w ++ '.' :: twoFrac f) from rfl, h, List.reverse_append]
  simp [twoFrac, scanRev, isDigitCh_dig, scanRev_groupDigits w]

/-- Every output of `fmt` matches the two-decimal, thousands-separated
money convention. -/
theorem isMoneyFormat_fmt (q : ℚ) : isMoneyFormat (fmt q) = true := by
  simp only [fmt, fmtList]
  by_cases hq : q < 0
  · rw [if_pos hq]
    refine isMoneyFormat_body _ _ ['-'] ?_
    simp [stripSign]
  · rw [if_neg hq]
    refine isMoneyFormat_body _ _ [] ?_
    simpa using stripSign_groupDigits_append _ ('.' :: twoFrac (centsOf |q| % 100))

theorem fmt_or_empty (b : Prop) [Decidable b] (v : ℚ) :
    (if b then "" else fmt v) = "" ∨
      isMoneyFormat (if b then "" else fmt v) = true := by
  split_ifs
  · exact Or.inl rfl
  · exact Or.inr (isMoneyFormat_fmt v)

theorem res_lmi (input : CashflowInput) (state : String) (f : Bool)
    (today : String) :
    (calculateCashflow input state f today).lmi =
      (if (cashflowCore input state f).lmi = 0 then ""
       else fmt ((cashflowCore input state f).lmi)) := rfl

theorem res_strataReport (input : CashflowInput) (state : String) (f : Bool)
    (today : String) :
    (calculateCashflow input state f today).strataReport =
      (if (cashflowCore input state f).strataReport = 0 then ""
       else fmt ((cashflowCore input state f).strataReport)) := rfl

theorem res_renovation (input : CashflowInput) (state : String) (f : Bool)
    (today : String) :
    (calculateCashflow input state f today).renovation =
      (if (cashflowCore input state f).renovation = 0 then ""
       else fmt ((cashflowCore input state f).renovation)) := rfl

theorem res_strataWeekly (input : CashflowInput) (state : String) (f : Bool)
    (today : String) :
    (calculateCashflow input state f today).strataWeekly =
      (if (cashflowCore input state f).strataAnn = 0 then ""
       else fmt ((cashflowCore input state f).strataAnn / 52)) := rfl

theorem res_strataMonthly (input : CashflowInput) (state : String) (f : Bool)
    (today : String) :
    (calculateCashflow input state f today).strataMonthly =
      (if (cashflowCore input state f).strataAnn = 0 then ""
       else fmt ((cashflowCore input state f).strataAnn / 12)) := rfl

theorem res_strataAnnually (input : CashflowInput) (state : String) (f : Bool)
    (today : String) :
    (calculateCashflow input state f today).strataAnnually =
      (if (cashflowCore input state f).strataAnn = 0 then ""
       else fmt ((cashflowCore input state f).strataAnn)) := rfl

theorem res_buildingInsWeekly (input : CashflowInput) (state : String) (f : Bool)
    (today : String) :
    (calculateCashflow input state f today).buildingInsWeekly =
      (if (cashflowCore input state f).buildingInsAnn = 0 then ""
       else fmt ((cashflowCore input state f).buildingInsAnn / 52)) := rfl

theorem res_buildingInsMonthly (input : CashflowInput) (state : String) (f : Bool)
    (today : String) :
    (calculateCashflow input state f today).buildingInsMonthly =
      (if (cashflowCore input state f).buildingInsAnn = 0 then ""
       else fmt ((cashflowCore input state f).buildingInsAnn / 12)) := rfl

theorem res_buildingInsAnnually (input : CashflowInput) (state : String) (f : Bool)
    (today : String) :
    (calculateCashflow input state f today).buildingInsAnnually =
      (if (cashflowCore input state f).buildingInsAnn = 0 then ""
       else fmt ((cashflowCore input state f).buildingInsAnn)) := rfl

theorem res_otherWeekly (input : CashflowInput) (state : String) (f : Bool)
    (today : String) :
    (calculateCashflow input state f today).otherWeekly =
      (if (cashflowCore input state f).otherAnn = 0 then ""
       else fmt ((cashflowCore input state f).otherAnn / 52)) := rfl

theorem res_otherMonthly (input : CashflowInput) (state : String) (f : Bool)
    (today : String) :
    (calculateCashflow input state f today).otherMonthly =
      (if (cashflowCore input state f).otherAnn = 0 then ""
       else fmt ((cashflowCore input state f).otherAnn / 12)) := rfl

theorem res_otherAnnually (input : CashflowInput) (state : String) (f : Bool)
    (today : String) :
    (calculateCashflow input state f today).otherAnnually =
      (if (cashflowCore input state f).otherAnn = 0 then ""
       else fmt ((cashflowCore input state f).otherAnn)) := rfl

/-- **C8 (amended)** — every monetary display field of the aggregator
output follows the fixed two-decimal, thousands-separated convention,
EXCEPT that the optional lines (LMI, strata report, renovation, strata,
building insurance, miscellaneous-other) render as the empty string
when their underlying value is zero — so the convention does not hold
"for all values including zero" on those fields. -/
theorem display_format_amended (input : CashflowInput) (state : String)
    (f : Bool) (today : String) :
    isMoneyFormat (calculateCashflow input state f today).purchasePrice = true ∧
    isMoneyFormat (calculateCashflow input state f today).loanAmount = true ∧
    isMoneyFormat (calculateCashflow input state f today).depositAmount = true ∧
    isMoneyFormat (calculateCashflow input state f today).stampDuty = true ∧
    isMoneyFormat (calculateCashflow input state f today).mortgageFee = true ∧
    isMoneyFormat (calculateCashflow input state f today).legals = true ∧
    isMoneyFormat (calculateCashflow input state f today).pestReport = true ∧
    isMoneyFormat (calculateCashflow input state f today).buyersAgencyFee = true ∧
    isMoneyFormat (calculateCashflow input state f today).totalFundsRequired = true ∧
    isMoneyFormat (calculateCashflow input state f today).lowerRentWeekly = true ∧
    isMoneyFormat (calculateCashflow input state f today).lowerRentMonthly = true ∧
    isMoneyFormat (calculateCashflow input state f today).lowerRentAnnually = true ∧
    isMoneyFormat (calculateCashflow input state f today).higherRentWeekly = true ∧
    isMoneyFormat (calculateCashflow input state f today).higherRentMonthly = true ∧
    isMoneyFormat (calculateCashflow input state f today).higherRentAnnually = true ∧
    isMoneyFormat (calculateCashflow input state f today).councilWeekly = true ∧
    isMoneyFormat (calculateCashflow input state f today).councilMonthly = true ∧
    isMoneyFormat (calculateCashflow input state f today).councilAnnually = true ∧
    isMoneyFormat (calculateCashflow input state f today).landlordInsWeekly = true ∧
    isMoneyFormat (calculateCashflow input state f today).landlordInsMonthly = true ∧
    isMoneyFormat (calculateCashflow input state f today).landlordInsAnnually = true ∧
    isMoneyFormat (calculateCashflow input state f today).mgmtFeeWeekly = true ∧
    isMoneyFormat (calculateCashflow input state f today).mgmtFeeMonthly = true ∧
    isMoneyFormat (calculateCashflow input state f today).mgmtFeeAnnually = true ∧
    isMoneyFormat (calculateCashflow input state f today).interestOnlyWeekly = true ∧
    isMoneyFormat (calculateCashflow input state f today).interestOnlyMonthly = true ∧
    isMoneyFormat (calculateCashflow input state f today).interestOnlyAnnually = true ∧
    isMoneyFormat (calculateCashflow input state f today).principalInterestWeekly = true ∧
    isMoneyFormat (calculateCashflow input state f today).principalInterestMonthly = true ∧
    isMoneyFormat (calculateCashflow input state f today).principalInterestAnnually = true ∧
    isMoneyFormat (calculateCashflow input state f today).totalExpenseWeekly = true ∧
    isMoneyFormat (calculateCashflow input state f today).totalExpenseMonthly = true ∧
    isMoneyFormat (calculateCashflow input state f today).totalExpenseAnnually = true ∧
    isMoneyFormat (calculateCashflow input state f today).cfBeforeTaxLowerWeekly = true ∧
    isMoneyFormat (calculateCashflow input state f today).cfBeforeTaxLowerMonthly = true ∧
    isMoneyFormat (calculateCashflow input state f today).cfBeforeTaxLowerAnnually = true ∧
    isMoneyFormat (calculateCashflow input state f today).cfBeforeTaxHigherWeekly = true ∧
    isMoneyFormat (calculateCashflow input state f today).cfBeforeTaxHigherMonthly = true ∧
    isMoneyFormat (calculateCashflow input state f today).cfBeforeTaxHigherAnnually = true ∧
    isMoneyFormat (calculateCashflow input state f today).cfAfterTaxLowerWeekly = true ∧
    isMoneyFormat (calculateCashflow input state f today).cfAfterTaxLowerMonthly = true ∧
    isMoneyFormat (calculateCashflow input state f today).cfAfterTaxLowerAnnually = true ∧
    isMoneyFormat (calculateCashflow input state f today).cfAfterTaxHigherWeekly = true ∧
    isMoneyFormat (calculateCashflow input state f today).cfAfterTaxHigherMonthly = true ∧
    isMoneyFormat (calculateCashflow input state f today).cfAfterTaxHigherAnnually = true ∧
    ((calculateCashflow input state f today).lmi = "" ∨
      isMoneyFormat (calculateCashflow input state f today).lmi = true) ∧
    ((calculateCashflow input state f today).strataReport = "" ∨
      isMoneyFormat (calculateCashflow input state f today).strataReport = true) ∧
    ((calculateCashflow input state f today).renovation = "" ∨
      isMoneyFormat (calculateCashflow input state f today).renovation = true) ∧
    ((calculateCashflow input state f today).strataWeekly = "" ∨
      isMoneyFormat (calculateCashflow input state f today).strataWeekly = true) ∧
    ((calculateCashflow input state f today).strataMonthly = "" ∨
      isMoneyFormat (calculateCashflow input state f today).strataMonthly = true) ∧
    ((calculateCashflow input state f today).strataAnnually = "" ∨
      isMoneyFormat (calculateCashflow input state f today).strataAnnually = true) ∧
    ((calculateCashflow input state f today).buildingInsWeekly = "" ∨
      isMoneyFormat (calculateCashflow input state f today).buildingInsWeekly = true) ∧
    ((calculateCashflow input state f today).buildingInsMonthly = "" ∨
      isMoneyFormat (calculateCashflow input state f today).buildingInsMonthly = true) ∧
    ((calculateCashflow input state f today).buildingInsAnnually = "" ∨
      isMoneyFormat (calculateCashflow input state f today).buildingInsAnnually = true) ∧
    ((calculateCashflow input state f today).otherWeekly = "" ∨
      isMoneyFormat (calculateCashflow input state f today).otherWeekly = true) ∧
    ((calculateCashflow input state f today).otherMonthly = "" ∨
      isMoneyFormat (calculateCashflow input state f today).otherMonthly = true) ∧
    ((calculateCashflow input state f today).otherAnnually = "" ∨
      isMoneyFormat (calculateCashflow input state f today).otherAnnually = true) ∧
    ((cashflowCore input state f).lmi = 0 → (calculateCashflow input state f today).lmi = "") ∧
    ((cashflowCore input state f).strataReport = 0 →
      (calculateCashflow input state f today).strataReport = "") ∧
    ((cashflowCore input state f).renovation = 0 →
      (calculateCashflow input state f today).renovation = "") ∧
    ((cashflowCore input state f).strataAnn = 0 →
      (calculateCashflow input state f today).strataWeekly = "" ∧ (calculateCashflow input state f today).strataMonthly = "" ∧
      (calculateCashflow input state f today).strataAnnually = "") ∧
    ((cashflowCore input state f).buildingInsAnn = 0 →
      (calculateCashflow input state f today).buildingInsWeekly = "" ∧ (calculateCashflow input state f today).buildingInsMonthly = "" ∧
      (calculateCashflow input state f today).buildingInsAnnually = "") ∧
    ((cashflowCore input state f).otherAnn = 0 →
      (calculateCashflow input state f today).otherWeekly = "" ∧ (calculateCashflow input state f today).otherMonthly = "" ∧
      (calculateCashflow input state f today).otherAnnually = "") :=
  ⟨isMoneyFormat_fmt _,
   isMoneyFormat_fmt _,
   isMoneyFormat_fmt _,
   isMoneyFormat_fmt _,
   isMoneyFormat_fmt _,
   isMoneyFormat_fmt _,
   isMoneyFormat_fmt _,
   isMoneyFormat_fmt _,
   isMoneyFormat_fmt _,
   isMoneyFormat_fmt _,
   isMoneyFormat_fmt _,
   isMoneyFormat_fmt _,
   isMoneyFormat_fmt _,
   isMoneyFormat_fmt _,
   isMoneyFormat_fmt _,
   isMoneyFormat_fmt _,
   isMoneyFormat_fmt _,
   isMoneyFormat_fmt _,
   isMoneyFormat_fmt _,
   isMoneyFormat_fmt _,
   isMoneyFormat_fmt _,
   isMoneyFormat_fmt _,
   isMoneyFormat_fmt _,
   isMoneyFormat_fmt _,
   isMoneyFormat_fmt _,
   isMoneyFormat_fmt _,
   isMoneyFormat_fmt _,
   isMoneyFormat_fmt _,
   isMoneyFormat_fmt _,
   isMoneyFormat_fmt _,
   isMoneyFormat_fmt _,
   isMoneyFormat_fmt _,
   isMoneyFormat_fmt _,
   isMoneyFormat_fmt _,
   isMoneyFormat_fmt _,
   isMoneyFormat_fmt _,
   isMoneyFormat_fmt _,
   isMoneyFormat_fmt _,
   isMoneyFormat_fmt _,
   isMoneyFormat_fmt _,
   isMoneyFormat_fmt _,
   isMoneyFormat_fmt _,
   isMoneyFormat_fmt _,
   isMoneyFormat_fmt _,
   isMoneyFormat_fmt _,
   fmt_or_empty _ _,
   fmt_or_empty _ _,
   fmt_or_empty _ _,
   fmt_or_empty _ _,
   fmt_or_empty _ _,
   fmt_or_empty _ _,
   fmt_or_empty _ _,
   fmt_or_empty _ _,
   fmt_or_empty _ _,
   fmt_or_empty _ _,
   fmt_or_empty _ _,
   fmt_or_empty _ _,
   fun h => by rw [res_lmi, if_pos h],
   fun h => by rw [res_strataReport, if_pos h],
   fun h => by rw [res_renovation, if_pos h],
   fun h => ⟨by rw [res_strataWeekly, if_pos h],
     by rw [res_strataMonthly, if_pos h], by rw [res_strataAnnually, if_pos h]⟩,
   fun h => ⟨by rw [res_buildingInsWeekly, if_pos h],
     by rw [res_buildingInsMonthly, if_pos h],
     by rw [res_buildingInsAnnually, if_pos h]⟩,
   fun h => ⟨by rw [res_otherWeekly, if_pos h],
     by rw [res_otherMonthly, if_pos h], by rw [res_otherAnnually, if_pos h]⟩⟩

unseal Rat.mul Rat.add Rat.sub Rat.inv Rat.ofScientific in
/-- **C8 counterexample** — in the §8 end-to-end run (deposit 20%, so
LMI = 0) the `lmi` display field is the empty string, not a formatted
`"0.00"`: the convention does not cover all values including zero. -/
theorem display_format_counterexample :
    (calculateCashflow endToEndInput "NSW" false "t").lmi = "" ∧
    isMoneyFormat "" = false :=
  ⟨by decide, by decide⟩

unseal Rat.mul Rat.add Rat.sub Rat.inv Rat.ofScientific in
/-- Witness for `display_format_amended`: in the §8 end-to-end run the
LMI value is 0 and the `lmi` field renders as the empty string. -/
theorem display_format_amended_witness :
    (calculateCashflow endToEndInput "NSW" false "t").lmi = "" := by
  have h := display_format_amended endToEndInput "NSW" false "t"
  iterate 57 replace h := h.2
  exact h.1 (by decide)

/-! ### Stamp duty: sign and monotonicity -/

theorem nswDuty_nonneg (p : ℚ) (hp : 0 ≤ p) : 0 ≤ nswDuty p := by
  unfold nswDuty
  split_ifs <;> linarith

theorem vicDuty_nonneg (p : ℚ) (hp : 0 ≤ p) : 0 ≤ vicDuty p := by
  unfold vicDuty
  split_ifs <;> linarith

theorem qldDuty_nonneg (p : ℚ) (hp : 0 ≤ p) : 0 ≤ qldDuty p := by
  unfold qldDuty
  split_ifs <;> linarith

theorem waDuty_nonneg (p : ℚ) (hp : 0 ≤ p) : 0 ≤ waDuty p := by
  unfold waDuty
  split_ifs <;> linarith

theorem saDuty_nonneg (p : ℚ) (hp : 0 ≤ p) : 0 ≤ saDuty p := by
  unfold saDuty
  split_ifs <;> linarith

theorem tasDuty_nonneg (p : ℚ) (hp : 0 ≤ p) : 0 ≤ tasDuty p := by
  unfold tasDuty
  split_ifs <;> linarith

theorem actDuty_nonneg (p : ℚ) (hp : 0 ≤ p) : 0 ≤ actDuty p := by
  unfold actDuty
  split_ifs <;> nlinarith [sq_nonneg p, hp]

theorem ntDuty_nonneg (p : ℚ) (hp : 0 ≤ p) : 0 ≤ ntDuty p := by
  unfold ntDuty
  split_ifs <;> nlinarith [sq_nonneg p, hp]

set_option maxHeartbeats 3200000 in
theorem nswDuty_mono (p1 p2 : ℚ) (h0 : 0 ≤ p1) (h : p1 ≤ p2) :
    nswDuty p1 ≤ nswDuty p2 := by
  unfold nswDuty
  split_ifs <;> linarith

set_option maxHeartbeats 3200000 in
theorem vicDuty_mono (p1 p2 : ℚ) (h0 : 0 ≤ p1) (h : p1 ≤ p2) :
    vicDuty p1 ≤ vicDuty p2 := by
  unfold vicDuty
  split_ifs <;> linarith

set_option maxHeartbeats 3200000 in
theorem qldDuty_mono (p1 p2 : ℚ) (h0 : 0 ≤ p1) (h : p1 ≤ p2) :
    qldDuty p1 ≤ qldDuty p2 := by
  unfold qldDuty
  split_ifs <;> linarith

set_option maxHeartbeats 3200000 in
theorem waDuty_mono (p1 p2 : ℚ) (h0 : 0 ≤ p1) (h : p1 ≤ p2) :
    waDuty p1 ≤ waDuty p2 := by
  unfold waDuty
  split_ifs <;> linarith

set_option maxHeartbeats 3200000 in
theorem tasDuty_mono (p1 p2 : ℚ) (h0 : 0 ≤ p1) (h : p1 ≤ p2) :
    tasDuty p1 ≤ tasDuty p2 := by
  unfold tasDuty
  split_ifs <;> linarith

theorem stampDutyRaw_nonneg (s : String) (p : ℚ) (hp : 0 ≤ p) :
    0 ≤ stampDutyRaw p s := by
  unfold stampDutyRaw
  split_ifs
  · exact nswDuty_nonneg p hp
  · exact vicDuty_nonneg p hp
  · exact qldDuty_nonneg p hp
  · exact waDuty_nonneg p hp
  · exact saDuty_nonneg p hp
  · exact tasDuty_nonneg p hp
  · exact actDuty_nonneg p hp
  · exact ntDuty_nonneg p hp
  · linarith

theorem stampDutyRaw_mono (s : String) (p1 p2 : ℚ) (h0 : 0 ≤ p1)
    (h12 : p1 ≤ p2) (hSA : ¬s = "SA") (hACT : ¬s = "ACT")
    (hNT : ¬s = "NT") : stampDutyRaw p1 s ≤ stampDutyRaw p2 s := by
  unfold stampDutyRaw
  split_ifs
  · exact nswDuty_mono p1 p2 h0 h12
  · exact vicDuty_mono p1 p2 h0 h12
  · exact qldDuty_mono p1 p2 h0 h12
  · exact waDuty_mono p1 p2 h0 h12
  · exact tasDuty_mono p1 p2 h0 h12
  · linarith

unseal Rat.mul Rat.add Rat.sub Rat.inv Rat.ofScientific in
/-- **C1 (amended)** — for every jurisdiction code and all non-negative
prices the stamp duty is non-negative, and it is monotonically
non-decreasing in price for NSW, VIC, QLD, WA, TAS and the
unknown-jurisdiction flat-rate fallback; monotonicity FAILS for SA
(the duty drops just above the 300000 bracket boundary), for ACT (the
quadratic approximation collapses just above 260000), and for NT
(a sub-cent drop just above 525000 at fractional prices). -/
theorem stampDuty_nonneg_mono_amended :
    (∀ (state : String) (p : ℚ), 0 ≤ p → 0 ≤ calcStampDuty p state) ∧
    (∀ (state : String) (p1 p2 : ℚ), 0 ≤ p1 → p1 ≤ p2 →
      normStateTrim state ≠ "SA" → normStateTrim state ≠ "ACT" →
      normStateTrim state ≠ "NT" →
      calcStampDuty p1 state ≤ calcStampDuty p2 state) ∧
    calcStampDuty 260001 "ACT" < calcStampDuty 260000 "ACT" ∧
    calcStampDuty 300001 "SA" < calcStampDuty 300000 "SA" ∧
    calcStampDuty (525000 + 1/2) "NT" < calcStampDuty 525000 "NT" :=
  ⟨fun _ p hp => stampDutyRaw_nonneg _ p hp,
   fun _ p1 p2 h0 h12 hSA hACT hNT =>
     stampDutyRaw_mono _ p1 p2 h0 h12 hSA hACT hNT,
   by decide, by decide, by decide⟩

/-- Witness for `stampDuty_nonneg_mono_amended` at QLD prices 100 and
200. -/
theorem stampDuty_nonneg_mono_amended_witness :
    0 ≤ calcStampDuty 100 "QLD" ∧
    calcStampDuty 100 "QLD" ≤ calcStampDuty 200 "QLD" :=
  ⟨stampDuty_nonneg_mono_amended.1 "QLD" 100 (by norm_num),
   stampDuty_nonneg_mono_amended.2.1 "QLD" 100 200 (by norm_num)
     (by norm_num) (by decide) (by decide) (by decide)⟩

unseal Rat.mul Rat.add Rat.sub Rat.inv Rat.ofScientific in
/-- **C1 counterexample** — monotonicity fails on the code as claimed:
in the ACT approximation branch the duty at price 260001 is below the
duty at the lower price 260000 (5910 versus 4056000), although
0 ≤ 260000 ≤ 260001. -/
theorem stampDuty_mono_counterexample :
    (0 : ℚ) ≤ 260000 ∧ (260000 : ℚ) ≤ 260001 ∧
    calcStampDuty 260001 "ACT" < calcStampDuty 260000 "ACT" :=
  ⟨by norm_num, by norm_num, by decide⟩

end Cashflow
